import Mathlib

/-!
Shallow embedding of the task-management service
(backend/app: models.py, schemas.py, crud.py, neo4j_client.py, main.py).

The relational store is modelled as lists of rows; the graph mirror as lists
of nodes and edges.  Timestamps are `Nat` (an abstract clock value passed in
by the caller).  Each Cypher statement of `neo4j_client.py` is translated
clause by clause; each crud function of `crud.py` is translated statement by
statement, with the possibility of the graph call failing made explicit by a
`graphUp : Bool` argument (the Python call raises when the graph store is
unreachable; the exception propagates because there is no try/except).
-/

namespace TodoApp

/-- Row of the `users` table (models.py `User`). -/
structure UserRow where
  id : Nat
  username : String
  email : String
  hashed_password : String
  is_active : Bool
  created_at : Nat
  deriving Repr, DecidableEq

/-- Row of the `todos` table (models.py `Todo`).  `priority` is a plain
string in the source (default "medium"); `updated_at` is NULL until the
first UPDATE statement (onupdate=func.now()). -/
structure TodoRow where
  id : Nat
  title : String
  description : Option String
  completed : Bool
  priority : String
  created_at : Nat
  updated_at : Option Nat
  due_date : Option Nat
  user_id : Nat
  deriving Repr, DecidableEq

/-- Row of the `categories` table (models.py `Category`). -/
structure CategoryRow where
  id : Nat
  name : String
  color : String
  user_id : Nat
  created_at : Nat
  deriving Repr, DecidableEq

/-- The relational store: the three tables plus autoincrement counters. -/
structure RelDB where
  users : List UserRow
  todos : List TodoRow
  categories : List CategoryRow
  nextUserId : Nat
  nextTodoId : Nat
  nextCategoryId : Nat
  deriving Repr, DecidableEq

/-- Neo4j `User` node: `MERGE (u:User {id}) SET u.username, u.email`. -/
structure UserNode where
  id : Nat
  username : String
  email : String
  deriving Repr, DecidableEq

/-- Neo4j `Todo` node: `MERGE (t:Todo {id}) SET t.title`. -/
structure TodoNode where
  id : Nat
  title : String
  deriving Repr, DecidableEq

/-- Neo4j `Category` node: `MERGE (c:Category {id}) SET c.name`. -/
structure CategoryNode where
  id : Nat
  name : String
  deriving Repr, DecidableEq

/-- The graph mirror: node lists plus the three edge relations, each edge
stored as a pair of endpoint ids.  `owns` is (userId, todoId), `created` is
(userId, categoryId), `belongsTo` is (todoId, categoryId). -/
structure GraphDB where
  userNodes : List UserNode
  todoNodes : List TodoNode
  categoryNodes : List CategoryNode
  owns : List (Nat × Nat)
  created : List (Nat × Nat)
  belongsTo : List (Nat × Nat)
  deriving Repr, DecidableEq

/-- `MERGE` on an edge keyed by its two endpoints: create-if-absent. -/
def mergeEdge (es : List (Nat × Nat)) (e : Nat × Nat) : List (Nat × Nat) :=
  if e ∈ es then es else es ++ [e]

/-- `MERGE (u:User {id: $user_id}) SET u.username = ..., u.email = ...` on
the list of user nodes: if a node with the id exists it is updated in
place, otherwise a new node is appended. -/
def mergeUserList (l : List UserNode) (uid : Nat) (un em : String) : List UserNode :=
  if l.any (fun n => n.id == uid) then
    l.map (fun n => if n.id == uid then { n with username := un, email := em } else n)
  else l ++ [{ id := uid, username := un, email := em }]

/-- `MERGE (t:Todo {id: $todo_id}) SET t.title = ...` on the todo nodes. -/
def mergeTodoList (l : List TodoNode) (tid : Nat) (title : String) : List TodoNode :=
  if l.any (fun n => n.id == tid) then
    l.map (fun n => if n.id == tid then { n with title := title } else n)
  else l ++ [{ id := tid, title := title }]

/-- `MERGE (c:Category {id: $category_id}) SET c.name = ...`. -/
def mergeCategoryList (l : List CategoryNode) (cid : Nat) (name : String) : List CategoryNode :=
  if l.any (fun n => n.id == cid) then
    l.map (fun n => if n.id == cid then { n with name := name } else n)
  else l ++ [{ id := cid, name := name }]

/-- neo4j_client.create_user_node. -/
def create_user_node (g : GraphDB) (user_id : Nat) (username email : String) : GraphDB :=
  { g with userNodes := mergeUserList g.userNodes user_id username email }

/-- neo4j_client.create_todo_node: merge the Todo node and set its title,
then `MATCH (u:User {id: $user_id}) MERGE (u)-[:OWNS]->(t)` — if no User
node with the id exists, the MATCH yields no row and the edge merge is a
silent no-op (the node merge has already taken effect). -/
def create_todo_node (g : GraphDB) (todo_id : Nat) (title : String) (user_id : Nat) : GraphDB :=
  let g1 := { g with todoNodes := mergeTodoList g.todoNodes todo_id title }
  if g1.userNodes.any (fun n => n.id == user_id) then
    { g1 with owns := mergeEdge g1.owns (user_id, todo_id) }
  else g1

/-- neo4j_client.create_category_node: same shape with a CREATED edge. -/
def create_category_node (g : GraphDB) (category_id : Nat) (name : String) (user_id : Nat) :
    GraphDB :=
  let g1 := { g with categoryNodes := mergeCategoryList g.categoryNodes category_id name }
  if g1.userNodes.any (fun n => n.id == user_id) then
    { g1 with created := mergeEdge g1.created (user_id, category_id) }
  else g1

/-- neo4j_client.link_todo_to_category: `MATCH (t:Todo {id}), (c:Category {id})
MERGE (t)-[:BELONGS_TO]->(c)` — the edge is merged only when both endpoint
nodes match. -/
def link_todo_to_category (g : GraphDB) (todo_id category_id : Nat) : GraphDB :=
  if g.todoNodes.any (fun n => n.id == todo_id) &&
      g.categoryNodes.any (fun n => n.id == category_id) then
    { g with belongsTo := mergeEdge g.belongsTo (todo_id, category_id) }
  else g

/-- The row set of the Cypher query in neo4j_client.get_todo_recommendations
before LIMIT: `MATCH (u:User {id: $uid})-[:OWNS]->(t:Todo)-[:BELONGS_TO]->(c:Category)
MATCH (c)<-[:BELONGS_TO]-(other_todo:Todo)<-[:OWNS]-(other_user:User)
WHERE other_user.id <> $uid RETURN other_todo.title, c.name`. -/
def recommendationRows (g : GraphDB) (user_id : Nat) : List (String × String) :=
  (g.userNodes.filter (fun u => u.id == user_id)).flatMap (fun u =>
    (g.todoNodes.filter (fun t => decide ((u.id, t.id) ∈ g.owns))).flatMap (fun t =>
      (g.categoryNodes.filter (fun c => decide ((t.id, c.id) ∈ g.belongsTo))).flatMap (fun c =>
        (g.todoNodes.filter (fun ot => decide ((ot.id, c.id) ∈ g.belongsTo))).flatMap (fun ot =>
          (g.userNodes.filter (fun ou =>
              decide ((ou.id, ot.id) ∈ g.owns) && ou.id != user_id)).map (fun _ou =>
            (ot.title, c.name))))))

/-- neo4j_client.get_todo_recommendations: the query rows capped by LIMIT 5. -/
def get_todo_recommendations (g : GraphDB) (user_id : Nat) : List (String × String) :=
  (recommendationRows g user_id).take 5

/-- Errors surfaced by the API layer (HTTPException in main.py), plus the
uncaught exception of a failed graph propagation call. -/
inductive ApiError where
  | Conflict
  | NotFound
  | PropagationFailure
  deriving Repr, DecidableEq

/-- Combined state: relational store (authoritative) and graph mirror. -/
structure AppState where
  rdb : RelDB
  gdb : GraphDB
  deriving Repr, DecidableEq

/-- Modelled from the spec: the Credential Service hash capability
("hash(password) -> digest", auth module internals out of scope); a pure
digest function — no claim inspects digests. -/
def get_password_hash (p : String) : String :=
  "$2b$" ++ p

/-- crud.create_user: insert the row and commit, then call
neo4j_client.create_user_node.  `graphUp` tells whether the graph call
succeeds; when it does not, the driver raises and the exception propagates
(there is no try/except in crud.py), but the relational commit has already
happened. -/
def crud_create_user (s : AppState) (graphUp : Bool) (username email password : String)
    (now : Nat) : Except ApiError UserRow × AppState :=
  let u : UserRow :=
    { id := s.rdb.nextUserId, username := username, email := email,
      hashed_password := get_password_hash password, is_active := true, created_at := now }
  let rdb1 : RelDB :=
    { s.rdb with users := s.rdb.users ++ [u], nextUserId := s.rdb.nextUserId + 1 }
  if graphUp then
    (Except.ok u, ⟨rdb1, create_user_node s.gdb u.id username email⟩)
  else
    (Except.error ApiError.PropagationFailure, ⟨rdb1, s.gdb⟩)

/-- main.register: check username, then email, then create. -/
def register (s : AppState) (graphUp : Bool) (username email password : String)
    (now : Nat) : Except ApiError UserRow × AppState :=
  if s.rdb.users.any (fun u => u.username == username) then
    (Except.error ApiError.Conflict, s)
  else if s.rdb.users.any (fun u => u.email == email) then
    (Except.error ApiError.Conflict, s)
  else
    crud_create_user s graphUp username email password now

/-- schemas.TodoCreate (title required; description, priority, due_date
optional with defaults applied by the caller). -/
structure TodoCreate where
  title : String
  description : Option String
  priority : String
  due_date : Option Nat
  deriving Repr, DecidableEq

/-- crud.create_todo: insert with completed=false default, commit, then
call neo4j_client.create_todo_node (same failure convention as
crud_create_user). -/
def crud_create_todo (s : AppState) (graphUp : Bool) (todo : TodoCreate) (user_id : Nat)
    (now : Nat) : Except ApiError TodoRow × AppState :=
  let t : TodoRow :=
    { id := s.rdb.nextTodoId, title := todo.title, description := todo.description,
      completed := false, priority := todo.priority, created_at := now,
      updated_at := none, due_date := todo.due_date, user_id := user_id }
  let rdb1 : RelDB :=
    { s.rdb with todos := s.rdb.todos ++ [t], nextTodoId := s.rdb.nextTodoId + 1 }
  if graphUp then
    (Except.ok t, ⟨rdb1, create_todo_node s.gdb t.id t.title user_id⟩)
  else
    (Except.error ApiError.PropagationFailure, ⟨rdb1, s.gdb⟩)

/-- schemas.CategoryCreate. -/
structure CategoryCreate where
  name : String
  color : String
  deriving Repr, DecidableEq

/-- crud.create_category: insert, commit, then neo4j_client.create_category_node. -/
def crud_create_category (s : AppState) (graphUp : Bool) (category : CategoryCreate)
    (user_id : Nat) (now : Nat) : Except ApiError CategoryRow × AppState :=
  let c : CategoryRow :=
    { id := s.rdb.nextCategoryId, name := category.name, color := category.color,
      user_id := user_id, created_at := now }
  let rdb1 : RelDB :=
    { s.rdb with
      categories := s.rdb.categories ++ [c]
      nextCategoryId := s.rdb.nextCategoryId + 1 }
  if graphUp then
    (Except.ok c, ⟨rdb1, create_category_node s.gdb c.id category.name user_id⟩)
  else
    (Except.error ApiError.PropagationFailure, ⟨rdb1, s.gdb⟩)

/-- crud.get_todos: filter by user_id, offset skip, limit. -/
def get_todos (s : AppState) (user_id skip limit : Nat) : List TodoRow :=
  (((s.rdb.todos.filter (fun t => t.user_id == user_id)).drop skip).take limit)

/-- crud.get_todo: first row matching both the todo id and the owner id. -/
def get_todo (s : AppState) (todo_id user_id : Nat) : Option TodoRow :=
  (s.rdb.todos.filter (fun t => t.id == todo_id && t.user_id == user_id)).head?

/-- schemas.TodoUpdate with pydantic exclude_unset semantics: the outer
`Option` is none exactly when the field was not supplied in the request
body; for the nullable columns (description, due_date) the supplied value
may itself be null. -/
structure TodoUpdate where
  title : Option String
  description : Option (Option String)
  completed : Option Bool
  priority : Option String
  due_date : Option (Option Nat)
  deriving Repr, DecidableEq

/-- True when `dict(exclude_unset=True)` is empty: no field supplied. -/
def TodoUpdate.isUnset (u : TodoUpdate) : Bool :=
  u.title.isNone && u.description.isNone && u.completed.isNone &&
    u.priority.isNone && u.due_date.isNone

/-- The `for field, value in update_data.items(): setattr(db_todo, field, value)`
loop: each supplied field overwrites, each unsupplied field is untouched. -/
def applyTodoUpdate (t : TodoRow) (u : TodoUpdate) : TodoRow :=
  { t with
    title := u.title.getD t.title
    description := u.description.getD t.description
    completed := u.completed.getD t.completed
    priority := u.priority.getD t.priority
    due_date := u.due_date.getD t.due_date }

/-- crud.update_todo: ownership-scoped lookup; on hit, apply the supplied
fields and commit — the commit's UPDATE statement also fires the column
default onupdate=func.now() for updated_at (no UPDATE is issued when the
update payload is empty, the session being clean). -/
def crud_update_todo (s : AppState) (todo_id : Nat) (u : TodoUpdate) (user_id now : Nat) :
    Option TodoRow × AppState :=
  match (s.rdb.todos.filter (fun t => t.id == todo_id && t.user_id == user_id)).head? with
  | none => (none, s)
  | some t =>
    let t1 := if u.isUnset then t else { applyTodoUpdate t u with updated_at := some now }
    (some t1,
      ⟨{ s.rdb with todos := s.rdb.todos.map (fun x => if x.id == t.id then t1 else x) },
        s.gdb⟩)

/-- crud.delete_todo: ownership-scoped lookup; on hit, delete the row (by
primary key) and commit.  No graph call is made. -/
def crud_delete_todo (s : AppState) (todo_id user_id : Nat) : Option TodoRow × AppState :=
  match (s.rdb.todos.filter (fun t => t.id == todo_id && t.user_id == user_id)).head? with
  | none => (none, s)
  | some t =>
    (some t, ⟨{ s.rdb with todos := s.rdb.todos.filter (fun x => !(x.id == t.id)) }, s.gdb⟩)

/-- main.read_todo (GET /todos/id): 404 when the scoped lookup misses. -/
def read_todo (s : AppState) (todo_id user_id : Nat) : Except ApiError TodoRow :=
  match get_todo s todo_id user_id with
  | none => Except.error ApiError.NotFound
  | some t => Except.ok t

/-- main.update_todo (PUT /todos/id): 404 when the scoped lookup misses. -/
def api_update_todo (s : AppState) (todo_id : Nat) (u : TodoUpdate) (user_id now : Nat) :
    Except ApiError TodoRow × AppState :=
  match crud_update_todo s todo_id u user_id now with
  | (none, s1) => (Except.error ApiError.NotFound, s1)
  | (some t, s1) => (Except.ok t, s1)

/-- main.delete_todo (DELETE /todos/id): 404 when the scoped lookup misses. -/
def api_delete_todo (s : AppState) (todo_id user_id : Nat) :
    Except ApiError String × AppState :=
  match crud_delete_todo s todo_id user_id with
  | (none, s1) => (Except.error ApiError.NotFound, s1)
  | (some _, s1) => (Except.ok "Todo deleted successfully", s1)

/-- Fresh deployment: empty tables, empty graph, counters at 1. -/
def initState : AppState :=
  ⟨⟨[], [], [], 1, 1, 1⟩, ⟨[], [], [], [], [], []⟩⟩

/-- States reachable through the service's own mutating operations (the
read endpoints do not change state; link_todo_to_category has no caller in
the code base, so no step invokes it). -/
inductive Reachable : AppState → Prop where
  | init : Reachable initState
  | stepRegister (s : AppState) (graphUp : Bool) (username email password : String)
      (now : Nat) : Reachable s →
      Reachable (register s graphUp username email password now).2
  | stepCreateTodo (s : AppState) (graphUp : Bool) (todo : TodoCreate) (user_id now : Nat) :
      Reachable s → Reachable (crud_create_todo s graphUp todo user_id now).2
  | stepUpdateTodo (s : AppState) (todo_id : Nat) (u : TodoUpdate) (user_id now : Nat) :
      Reachable s → Reachable (crud_update_todo s todo_id u user_id now).2
  | stepDeleteTodo (s : AppState) (todo_id user_id : Nat) :
      Reachable s → Reachable (crud_delete_todo s todo_id user_id).2
  | stepCreateCategory (s : AppState) (graphUp : Bool) (category : CategoryCreate)
      (user_id now : Nat) : Reachable s →
      Reachable (crud_create_category s graphUp category user_id now).2

/-- The empty graph mirror. -/
def emptyGraph : GraphDB := ⟨[], [], [], [], [], []⟩

/-- A request body supplying no field at all. -/
def noUpdate : TodoUpdate := ⟨none, none, none, none, none⟩

/-- A request body supplying only `completed := true`. -/
def completedOnlyUpdate : TodoUpdate := ⟨none, none, some true, none, none⟩

/-- State holding one todo (id 10) owned by user 2. -/
def c2State : AppState :=
  ⟨⟨[], [{ id := 10, title := "T", description := none, completed := false,
           priority := "medium", created_at := 0, updated_at := none, due_date := none,
           user_id := 2 }], [], 1, 11, 1⟩, emptyGraph⟩

/-- A todo row (id 10) owned by user 1 with distinctive field values. -/
def c4Todo : TodoRow :=
  { id := 10, title := "Write report", description := none, completed := false,
    priority := "high", created_at := 3, updated_at := none, due_date := some 5,
    user_id := 1 }

/-- State holding `c4Todo` only. -/
def c4State : AppState := ⟨⟨[], [c4Todo], [], 1, 11, 1⟩, emptyGraph⟩

/-- A todo creation payload. -/
def c7Todo : TodoCreate := ⟨"T", none, "medium", none⟩

/-- State where user 1 exists relationally and its User node has been
propagated to the graph. -/
def c7State : AppState :=
  ⟨⟨[{ id := 1, username := "alice", email := "a@x.com",
       hashed_password := "h", is_active := true, created_at := 0 }], [], [], 2, 1, 1⟩,
    ⟨[{ id := 1, username := "alice", email := "a@x.com" }], [], [], [], [], []⟩⟩

/-- Two todos owned by user 1. -/
def c8Todo : TodoRow :=
  { id := 10, title := "A", description := none, completed := false, priority := "medium",
    created_at := 0, updated_at := none, due_date := none, user_id := 1 }

/-- Second todo of user 1, distinct id. -/
def c8Todo2 : TodoRow :=
  { id := 11, title := "B", description := none, completed := false, priority := "medium",
    created_at := 0, updated_at := none, due_date := none, user_id := 1 }

/-- State holding both of user 1's todos. -/
def c8State : AppState := ⟨⟨[], [c8Todo, c8Todo2], [], 1, 12, 1⟩, emptyGraph⟩

/-- Graph where user 1 is the only user and owns the only categorized todo. -/
def c3Graph : GraphDB :=
  ⟨[{ id := 1, username := "alice", email := "a" }], [{ id := 10, title := "Plan sprint" }],
    [{ id := 100, name := "Work" }], [(1, 10)], [], [(10, 100)]⟩

/-- The row inserted by crud.create_user once the checks have passed. -/
def newUserRow (s : AppState) (un em pw : String) (now : Nat) : UserRow :=
  { id := s.rdb.nextUserId, username := un, email := em,
    hashed_password := get_password_hash pw, is_active := true, created_at := now }

/-! ## Theorems -/

/-- Claim C1, counterexample: on a fresh deployment, a `create_user` whose
graph propagation step fails does NOT succeed — the propagation exception
reaches the caller — even though the relational row was committed.  This
refutes "the originating call still succeeds and returns the created
entity". -/
theorem c1_counterexample :
    (crud_create_user initState false "alice" "alice@example.com" "pw" 0).1 =
      Except.error ApiError.PropagationFailure ∧
    (crud_create_user initState false "alice" "alice@example.com" "pw" 0).2.rdb.users =
      [{ id := 1, username := "alice", email := "alice@example.com",
         hashed_password := get_password_hash "pw", is_active := true, created_at := 0 }] :=
  ⟨rfl, rfl⟩

/-- Claim C1 (amended): for every mutating operation (create_user,
create_todo, create_category), when the graph-mirror propagation step fails
after the relational commit, the committed relational state is unaffected —
identical to the relational state of a successful call, neither rolled back
nor altered — and the graph is untouched; but the originating call does not
succeed: the propagation failure propagates to the caller instead of being
recovered locally. -/
theorem c1_propagation_failure_keeps_commit (s : AppState)
    (username email password : String) (todo : TodoCreate) (category : CategoryCreate)
    (user_id now : Nat) :
    ((crud_create_user s false username email password now).1 =
        Except.error ApiError.PropagationFailure ∧
      (crud_create_user s false username email password now).2.rdb =
        (crud_create_user s true username email password now).2.rdb ∧
      (crud_create_user s false username email password now).2.gdb = s.gdb) ∧
    ((crud_create_todo s false todo user_id now).1 =
        Except.error ApiError.PropagationFailure ∧
      (crud_create_todo s false todo user_id now).2.rdb =
        (crud_create_todo s true todo user_id now).2.rdb ∧
      (crud_create_todo s false todo user_id now).2.gdb = s.gdb) ∧
    ((crud_create_category s false category user_id now).1 =
        Except.error ApiError.PropagationFailure ∧
      (crud_create_category s false category user_id now).2.rdb =
        (crud_create_category s true category user_id now).2.rdb ∧
      (crud_create_category s false category user_id now).2.gdb = s.gdb) :=
  ⟨⟨rfl, rfl, rfl⟩, ⟨rfl, rfl, rfl⟩, ⟨rfl, rfl, rfl⟩⟩

/-- If no stored todo carries both the requested id and the requesting
owner, the ownership-scoped filter of crud.get_todo is empty. -/
theorem scoped_filter_eq_nil (s : AppState) (todo_id a : Nat)
    (h : ∀ t ∈ s.rdb.todos, t.id = todo_id → t.user_id ≠ a) :
    s.rdb.todos.filter (fun t => t.id == todo_id && t.user_id == a) = [] := by
  rw [List.filter_eq_nil_iff]
  intro t ht
  simp only [Bool.and_eq_true, beq_iff_eq, not_and]
  intro h1 h2
  exact h t ht h1 h2

/-- Claim C2: for a requesting user `a` and a todo id such that no stored
todo with that id is owned by `a` — which covers both "the todo belongs to
another user" and "no such todo exists" — GET, PUT and DELETE all produce
exactly `NotFound` with the state unchanged, so the two situations are
observationally identical and no data of another user is returned. -/
theorem c2_cross_user_not_found (s : AppState) (todo_id a : Nat) (u : TodoUpdate)
    (now : Nat) (h : ∀ t ∈ s.rdb.todos, t.id = todo_id → t.user_id ≠ a) :
    read_todo s todo_id a = Except.error ApiError.NotFound ∧
    api_update_todo s todo_id u a now = (Except.error ApiError.NotFound, s) ∧
    api_delete_todo s todo_id a = (Except.error ApiError.NotFound, s) := by
  have hf := scoped_filter_eq_nil s todo_id a h
  refine ⟨?_, ?_, ?_⟩ <;>
    simp [read_todo, get_todo, api_update_todo, crud_update_todo, api_delete_todo,
      crud_delete_todo, hf]

/-- Claim C2 witness: user 1 requests todo 10, owned by user 2. -/
theorem c2_witness :
    read_todo c2State 10 1 = Except.error ApiError.NotFound ∧
    api_update_todo c2State 10 noUpdate 1 0 = (Except.error ApiError.NotFound, c2State) ∧
    api_delete_todo c2State 10 1 = (Except.error ApiError.NotFound, c2State) :=
  c2_cross_user_not_found c2State 10 1 noUpdate 0 (by decide)

/-- The updated row returned by crud.update_todo, characterised field by
field: each field equals the supplied value when present, the prior value
when absent. -/
theorem update_todo_fields (s : AppState) (todo_id user_id now : Nat) (u : TodoUpdate)
    (t : TodoRow)
    (h : (s.rdb.todos.filter (fun x => x.id == todo_id && x.user_id == user_id)).head?
      = some t) :
    ∃ t1, (crud_update_todo s todo_id u user_id now).1 = some t1 ∧
      t1.title = u.title.getD t.title ∧
      t1.description = u.description.getD t.description ∧
      t1.completed = u.completed.getD t.completed ∧
      t1.priority = u.priority.getD t.priority ∧
      t1.due_date = u.due_date.getD t.due_date ∧
      t1.id = t.id ∧ t1.user_id = t.user_id ∧ t1.created_at = t.created_at := by
  by_cases hu : u.isUnset = true
  · obtain ⟨⟨⟨⟨h1, h2⟩, h3⟩, h4⟩, h5⟩ :
        (((u.title = none ∧ u.description = none) ∧ u.completed = none) ∧
          u.priority = none) ∧ u.due_date = none := by
      simpa [TodoUpdate.isUnset, Option.isNone_iff_eq_none] using hu
    refine ⟨t, by simp [crud_update_todo, h, hu], ?_, ?_, ?_, ?_, ?_, rfl, rfl, rfl⟩ <;>
      simp [h1, h2, h3, h4, h5]
  · exact ⟨{ applyTodoUpdate t u with updated_at := some now },
      by simp [crud_update_todo, h, hu], rfl, rfl, rfl, rfl, rfl, rfl, rfl, rfl⟩

/-- Claim C4: for an existing todo owned by the requesting user,
crud.update_todo applies exactly the fields explicitly present in the
update payload and leaves every unsupplied payload field at its prior
value. -/
theorem c4_partial_update (s : AppState) (todo_id user_id now : Nat) (u : TodoUpdate)
    (t : TodoRow)
    (h : (s.rdb.todos.filter (fun x => x.id == todo_id && x.user_id == user_id)).head?
      = some t) :
    ∃ t1, (crud_update_todo s todo_id u user_id now).1 = some t1 ∧
      (∀ v, u.title = some v → t1.title = v) ∧
      (u.title = none → t1.title = t.title) ∧
      (∀ v, u.description = some v → t1.description = v) ∧
      (u.description = none → t1.description = t.description) ∧
      (∀ v, u.completed = some v → t1.completed = v) ∧
      (u.completed = none → t1.completed = t.completed) ∧
      (∀ v, u.priority = some v → t1.priority = v) ∧
      (u.priority = none → t1.priority = t.priority) ∧
      (∀ v, u.due_date = some v → t1.due_date = v) ∧
      (u.due_date = none → t1.due_date = t.due_date) := by
  obtain ⟨t1, hs, hti, hde, hco, hpr, hdu, _, _, _⟩ :=
    update_todo_fields s todo_id user_id now u t h
  refine ⟨t1, hs, ?_, ?_, ?_, ?_, ?_, ?_, ?_, ?_, ?_, ?_⟩ <;>
    · intros
      simp_all

/-- Claim C4 witness: updating only `completed` on c4Todo leaves `title`,
`priority` and `due_date` unchanged. -/
theorem c4_witness :
    ∃ t1, (crud_update_todo c4State 10 completedOnlyUpdate 1 7).1 = some t1 ∧
      t1.completed = true ∧ t1.title = "Write report" ∧ t1.priority = "high" ∧
      t1.due_date = some 5 := by
  obtain ⟨t1, hs, _, htn, _, _, hcs, _, _, hpn, _, hdn⟩ :=
    c4_partial_update c4State 10 1 7 completedOnlyUpdate c4Todo (by rfl)
  exact ⟨t1, hs, hcs true rfl, htn rfl, hpn rfl, hdn rfl⟩

/-- Claim C10: the todo returned by crud.update_todo keeps the id, the
owning user_id and the created_at timestamp of the stored row — the update
schema exposes no way to change identity or transfer ownership. -/
theorem c10_update_preserves_identity (s : AppState) (todo_id user_id now : Nat)
    (u : TodoUpdate) (t : TodoRow)
    (h : (s.rdb.todos.filter (fun x => x.id == todo_id && x.user_id == user_id)).head?
      = some t) :
    ∃ t1, (crud_update_todo s todo_id u user_id now).1 = some t1 ∧
      t1.id = t.id ∧ t1.user_id = t.user_id ∧ t1.created_at = t.created_at := by
  obtain ⟨t1, hs, _, _, _, _, _, hid, hus, hcr⟩ :=
    update_todo_fields s todo_id user_id now u t h
  exact ⟨t1, hs, hid, hus, hcr⟩

/-- Claim C10 witness: an empty partial update on c4Todo keeps id 10,
owner 1 and created_at 3. -/
theorem c10_witness :
    ∃ t1, (crud_update_todo c4State 10 noUpdate 1 9).1 = some t1 ∧
      t1.id = 10 ∧ t1.user_id = 1 ∧ t1.created_at = 3 :=
  c10_update_preserves_identity c4State 10 1 9 noUpdate c4Todo (by rfl)

/-- main.register aborts at the first check when the username is taken. -/
theorem register_username_conflict (s : AppState) (g : Bool) (un em pw : String) (now : Nat)
    (hA : s.rdb.users.any (fun v => v.username == un) = true) :
    register s g un em pw now = (Except.error ApiError.Conflict, s) := by
  unfold register
  rw [if_pos hA]

/-- main.register aborts at the second check when the email is taken. -/
theorem register_email_conflict (s : AppState) (g : Bool) (un em pw : String) (now : Nat)
    (hA : s.rdb.users.any (fun v => v.username == un) = false)
    (hB : s.rdb.users.any (fun v => v.email == em) = true) :
    register s g un em pw now = (Except.error ApiError.Conflict, s) := by
  unfold register
  rw [if_neg (by simp [hA]), if_pos hB]

/-- When both checks pass, the inserted row is `newUserRow`. -/
theorem register_inserts_row (s : AppState) (g : Bool) (un em pw : String) (now : Nat)
    (hA : s.rdb.users.any (fun v => v.username == un) = false)
    (hB : s.rdb.users.any (fun v => v.email == em) = false) :
    (register s g un em pw now).2.rdb.users = s.rdb.users ++ [newUserRow s un em pw now] := by
  unfold register
  rw [if_neg (by simp [hA]), if_neg (by simp [hB])]
  cases g <;> rfl

/-- Claim C6: main.register yields `Conflict` without touching the store
whenever the username or the email is already taken (the two checks run
before the insert); and once a registration has passed the checks and
inserted its row, a second attempt with the same username — or with the
same email — yields `Conflict` and leaves the state unchanged. -/
theorem c6_register_conflict (s : AppState) (graphUp graphUp2 : Bool)
    (un em pw em2 un2 pw2 : String) (now now2 : Nat) :
    ((∃ x ∈ s.rdb.users, x.username = un ∨ x.email = em) →
      register s graphUp un em pw now = (Except.error ApiError.Conflict, s)) ∧
    (s.rdb.users.any (fun v => v.username == un) = false →
      s.rdb.users.any (fun v => v.email == em) = false →
      register (register s graphUp un em pw now).2 graphUp2 un em2 pw2 now2 =
        (Except.error ApiError.Conflict, (register s graphUp un em pw now).2) ∧
      register (register s graphUp un em pw now).2 graphUp2 un2 em pw2 now2 =
        (Except.error ApiError.Conflict, (register s graphUp un em pw now).2)) := by
  constructor
  · rintro ⟨x, hx, hxe⟩
    cases hA : s.rdb.users.any (fun v => v.username == un) with
    | true => exact register_username_conflict s graphUp un em pw now hA
    | false =>
      have hB : s.rdb.users.any (fun v => v.email == em) = true := by
        rcases hxe with h1 | h2
        · exfalso
          have : s.rdb.users.any (fun v => v.username == un) = true :=
            List.any_eq_true.mpr ⟨x, hx, by simp [h1]⟩
          simp [hA] at this
        · exact List.any_eq_true.mpr ⟨x, hx, by simp [h2]⟩
      exact register_email_conflict s graphUp un em pw now hA hB
  · intro hA hB
    have hval := register_inserts_row s graphUp un em pw now hA hB
    constructor
    · have hC : (register s graphUp un em pw now).2.rdb.users.any
          (fun v => v.username == un) = true := by
        rw [hval]; simp [List.any_append, newUserRow]
      exact register_username_conflict _ graphUp2 un em2 pw2 now2 hC
    · cases hC : (register s graphUp un em pw now).2.rdb.users.any
          (fun v => v.username == un2) with
      | true => exact register_username_conflict _ graphUp2 un2 em pw2 now2 hC
      | false =>
        have hD : (register s graphUp un em pw now).2.rdb.users.any
            (fun v => v.email == em) = true := by
          rw [hval]; simp [List.any_append, newUserRow]
        exact register_email_conflict _ graphUp2 un2 em pw2 now2 hC hD

/-- Claim C6 witness: registering "alice" twice (and reusing alice's email
under a fresh username) conflicts on the second attempt. -/
theorem c6_witness :
    register (register initState true "alice" "a@x.com" "pw" 0).2 true
        "alice" "b@x.com" "pw" 1 =
      (Except.error ApiError.Conflict, (register initState true "alice" "a@x.com" "pw" 0).2) ∧
    register (register initState true "alice" "a@x.com" "pw" 0).2 true
        "carol" "a@x.com" "pw" 1 =
      (Except.error ApiError.Conflict, (register initState true "alice" "a@x.com" "pw" 0).2) :=
  (c6_register_conflict initState true true "alice" "a@x.com" "pw" "b@x.com" "carol" "pw"
    0 1).2 (by decide) (by decide)

/-- SET on every matched User node: when some node matches the merge key
and at most one does, the matched portion after the update is exactly the
single node carrying the new property values. -/
theorem filter_userList_update (l : List UserNode) (uid : Nat) (un em : String)
    (hlen : (l.filter (fun n => n.id == uid)).length ≤ 1)
    (hany : l.any (fun n => n.id == uid) = true) :
    (l.map (fun n => if n.id == uid then { n with username := un, email := em } else n)).filter
      (fun n => n.id == uid) = [{ id := uid, username := un, email := em }] := by
  induction l with
  | nil => simp at hany
  | cons a tl ih =>
    cases ha : (a.id == uid) with
    | true =>
      have haid : a.id = uid := by simpa using ha
      have htl : tl.filter (fun n => n.id == uid) = [] := by
        simp only [List.filter_cons, ha, if_true, List.length_cons] at hlen
        exact List.length_eq_zero.mp (by omega)
      have htl2 : (tl.map (fun n =>
          if n.id == uid then { n with username := un, email := em } else n)).filter
            (fun n => n.id == uid) = [] := by
        rw [List.filter_eq_nil_iff]
        intro x hx
        obtain ⟨y, hy, rfl⟩ := List.mem_map.mp hx
        have hyp := List.filter_eq_nil_iff.mp htl y hy
        rw [if_neg hyp]
        exact hyp
      simp [List.map_cons, List.filter_cons, ha, htl2, haid]
      intro x hx
      have hyp := List.filter_eq_nil_iff.mp htl x hx
      simp only [beq_iff_eq] at hyp
      simp [hyp]
    | false =>
      have hlen2 : (tl.filter (fun n => n.id == uid)).length ≤ 1 := by
        simp only [List.filter_cons, ha, Bool.false_eq_true, if_false] at hlen
        exact hlen
      have hany2 : tl.any (fun n => n.id == uid) = true := by
        rw [List.any_cons, ha] at hany
        simpa using hany
      simp only [List.map_cons, List.filter_cons, ha, Bool.false_eq_true, if_false]
      exact ih hlen2 hany2

/-- MERGE on a User node: given at most one node currently matches the key,
the matched portion afterwards is exactly the single node carrying the new
property values (created when absent, updated in place when present). -/
theorem filter_mergeUserList (l : List UserNode) (uid : Nat) (un em : String)
    (h : (l.filter (fun n => n.id == uid)).length ≤ 1) :
    (mergeUserList l uid un em).filter (fun n => n.id == uid) =
      [{ id := uid, username := un, email := em }] := by
  unfold mergeUserList
  cases hA : l.any (fun n => n.id == uid) with
  | false =>
    have hnil : l.filter (fun n => n.id == uid) = [] := by
      rw [List.filter_eq_nil_iff]
      intro x hx
      have := List.any_eq_false.mp hA x hx
      simpa using this
    rw [if_neg (by simp), List.filter_append, hnil]
    simp
  | true =>
    rw [if_pos rfl]
    exact filter_userList_update l uid un em h hA

/-- A MERGE that finds its key updates in place: the node list length is
unchanged. -/
theorem length_mergeUserList_of_any (l : List UserNode) (uid : Nat) (un em : String)
    (hany : l.any (fun n => n.id == uid) = true) :
    (mergeUserList l uid un em).length = l.length := by
  unfold mergeUserList
  rw [if_pos hany, List.length_map]

/-- Claim C5: merging the same User node twice (create_user_node applied
twice with the same id) leaves exactly one User node with that id, carrying
the property values of the second delivery; the second delivery updates in
place and adds no node. -/
theorem c5_idempotent_user_merge (g : GraphDB) (uid : Nat) (un1 em1 un2 em2 : String)
    (h : (g.userNodes.filter (fun n => n.id == uid)).length ≤ 1) :
    (create_user_node (create_user_node g uid un1 em1) uid un2 em2).userNodes.filter
        (fun n => n.id == uid) = [{ id := uid, username := un2, email := em2 }] ∧
    (create_user_node (create_user_node g uid un1 em1) uid un2 em2).userNodes.length =
      (create_user_node g uid un1 em1).userNodes.length := by
  have h1 : (mergeUserList g.userNodes uid un1 em1).filter (fun n => n.id == uid) =
      [{ id := uid, username := un1, email := em1 }] := filter_mergeUserList _ _ _ _ h
  have h1len : ((mergeUserList g.userNodes uid un1 em1).filter
      (fun n => n.id == uid)).length ≤ 1 := by
    rw [h1]
    simp
  have hmem : ({ id := uid, username := un1, email := em1 } : UserNode) ∈
      mergeUserList g.userNodes uid un1 em1 := by
    have hx : ({ id := uid, username := un1, email := em1 } : UserNode) ∈
        (mergeUserList g.userNodes uid un1 em1).filter (fun n => n.id == uid) := by
      rw [h1]
      exact List.mem_singleton.mpr rfl
    exact (List.mem_filter.mp hx).1
  have hany : (mergeUserList g.userNodes uid un1 em1).any (fun n => n.id == uid) = true :=
    List.any_eq_true.mpr ⟨_, hmem, by simp⟩
  exact ⟨filter_mergeUserList _ _ _ _ h1len, length_mergeUserList_of_any _ _ _ _ hany⟩

/-- Claim C5 witness: merging user node 7 twice into the empty graph. -/
theorem c5_witness :
    (create_user_node (create_user_node emptyGraph 7 "u1" "e1") 7 "u2" "e2").userNodes.filter
        (fun n => n.id == 7) = [{ id := 7, username := "u2", email := "e2" }] ∧
    (create_user_node (create_user_node emptyGraph 7 "u1" "e1") 7 "u2" "e2").userNodes.length =
      (create_user_node emptyGraph 7 "u1" "e1").userNodes.length :=
  c5_idempotent_user_merge emptyGraph 7 "u1" "e1" "u2" "e2" (by decide)

/-- SET on every matched Todo node, under the at-most-one-match invariant. -/
theorem filter_todoList_update (l : List TodoNode) (tid : Nat) (title : String)
    (hlen : (l.filter (fun n => n.id == tid)).length ≤ 1)
    (hany : l.any (fun n => n.id == tid) = true) :
    (l.map (fun n => if n.id == tid then { n with title := title } else n)).filter
      (fun n => n.id == tid) = [{ id := tid, title := title }] := by
  induction l with
  | nil => simp at hany
  | cons a tl ih =>
    cases ha : (a.id == tid) with
    | true =>
      have haid : a.id = tid := by simpa using ha
      have htl : tl.filter (fun n => n.id == tid) = [] := by
        simp only [List.filter_cons, ha, if_true, List.length_cons] at hlen
        exact List.length_eq_zero.mp (by omega)
      have htl2 : (tl.map (fun n =>
          if n.id == tid then { n with title := title } else n)).filter
            (fun n => n.id == tid) = [] := by
        rw [List.filter_eq_nil_iff]
        intro x hx
        obtain ⟨y, hy, rfl⟩ := List.mem_map.mp hx
        have hyp := List.filter_eq_nil_iff.mp htl y hy
        rw [if_neg hyp]
        exact hyp
      simp [List.map_cons, List.filter_cons, ha, htl2, haid]
      intro x hx
      have hyp := List.filter_eq_nil_iff.mp htl x hx
      simp only [beq_iff_eq] at hyp
      simp [hyp]
    | false =>
      have hlen2 : (tl.filter (fun n => n.id == tid)).length ≤ 1 := by
        simp only [List.filter_cons, ha, Bool.false_eq_true, if_false] at hlen
        exact hlen
      have hany2 : tl.any (fun n => n.id == tid) = true := by
        rw [List.any_cons, ha] at hany
        simpa using hany
      simp only [List.map_cons, List.filter_cons, ha, Bool.false_eq_true, if_false]
      exact ih hlen2 hany2

/-- MERGE on a Todo node (create-if-absent, else update in place). -/
theorem filter_mergeTodoList (l : List TodoNode) (tid : Nat) (title : String)
    (h : (l.filter (fun n => n.id == tid)).length ≤ 1) :
    (mergeTodoList l tid title).filter (fun n => n.id == tid) =
      [{ id := tid, title := title }] := by
  unfold mergeTodoList
  cases hA : l.any (fun n => n.id == tid) with
  | false =>
    have hnil : l.filter (fun n => n.id == tid) = [] := by
      rw [List.filter_eq_nil_iff]
      intro x hx
      have := List.any_eq_false.mp hA x hx
      simpa using this
    rw [if_neg (by simp), List.filter_append, hnil]
    simp
  | true =>
    rw [if_pos rfl]
    exact filter_todoList_update l tid title h hA

/-- A merged edge is present after the merge. -/
theorem mem_mergeEdge (es : List (Nat × Nat)) (e : Nat × Nat) : e ∈ mergeEdge es e := by
  unfold mergeEdge
  split
  · assumption
  · exact List.mem_append.mpr (Or.inr (List.mem_singleton.mpr rfl))

/-- Claim C7: a crud.create_todo whose propagation call runs returns the
new todo, and afterwards the graph holds exactly one Todo node keyed by the
new id carrying its title; the OWNS edge from the User node is merged when
that node exists, and when it is missing the edge set is silently left
unchanged — no error in either case. -/
theorem c7_todo_propagation (s : AppState) (todo : TodoCreate) (user_id now : Nat)
    (h : (s.gdb.todoNodes.filter (fun n => n.id == s.rdb.nextTodoId)).length ≤ 1) :
    (∃ t, (crud_create_todo s true todo user_id now).1 = Except.ok t ∧
      t.id = s.rdb.nextTodoId ∧ t.title = todo.title ∧ t.user_id = user_id) ∧
    (crud_create_todo s true todo user_id now).2.gdb.todoNodes.filter
        (fun n => n.id == s.rdb.nextTodoId) =
      [{ id := s.rdb.nextTodoId, title := todo.title }] ∧
    (s.gdb.userNodes.any (fun n => n.id == user_id) = true →
      (user_id, s.rdb.nextTodoId) ∈ (crud_create_todo s true todo user_id now).2.gdb.owns) ∧
    (s.gdb.userNodes.any (fun n => n.id == user_id) = false →
      (crud_create_todo s true todo user_id now).2.gdb.owns = s.gdb.owns) := by
  have hgdb : (crud_create_todo s true todo user_id now).2.gdb =
      create_todo_node s.gdb s.rdb.nextTodoId todo.title user_id := rfl
  have hnodes : (create_todo_node s.gdb s.rdb.nextTodoId todo.title user_id).todoNodes =
      mergeTodoList s.gdb.todoNodes s.rdb.nextTodoId todo.title := by
    unfold create_todo_node
    dsimp only
    split <;> rfl
  refine ⟨⟨_, rfl, rfl, rfl, rfl⟩, ?_, ?_, ?_⟩
  · rw [hgdb, hnodes]
    exact filter_mergeTodoList _ _ _ h
  · intro hA
    rw [hgdb]
    unfold create_todo_node
    dsimp only
    rw [if_pos hA]
    exact mem_mergeEdge _ _
  · intro hA
    rw [hgdb]
    unfold create_todo_node
    dsimp only
    rw [if_neg (by simp [hA])]

/-- Claim C7 witness: with alice's User node present, creating her todo
merges the Todo node and the OWNS edge (1, 1). -/
theorem c7_witness :
    ((1 : Nat), (1 : Nat)) ∈ (crud_create_todo c7State true c7Todo 1 0).2.gdb.owns ∧
    (crud_create_todo c7State true c7Todo 1 0).2.gdb.todoNodes.filter
      (fun n => n.id == 1) = [{ id := 1, title := "T" }] := by
  have hthm := c7_todo_propagation c7State c7Todo 1 0 (by decide)
  exact ⟨hthm.2.2.1 (by decide), hthm.2.1⟩

/-- Claim C8: a successful ownership-scoped delete removes the todo's id
from every subsequent listing of that user, and performs no write at all to
the graph mirror. -/
theorem c8_delete_removes_from_listing (s : AppState) (todo_id user_id : Nat) (t : TodoRow)
    (h : (crud_delete_todo s todo_id user_id).1 = some t) :
    (∀ skip limit : Nat,
      ∀ x ∈ get_todos (crud_delete_todo s todo_id user_id).2 user_id skip limit,
        x.id ≠ t.id) ∧
    (crud_delete_todo s todo_id user_id).2.gdb = s.gdb := by
  cases hm : (s.rdb.todos.filter (fun x => x.id == todo_id && x.user_id == user_id)).head? with
  | none =>
    unfold crud_delete_todo at h
    rw [hm] at h
    simp at h
  | some t0 =>
    have ht : t0 = t := by
      unfold crud_delete_todo at h
      rw [hm] at h
      simpa using h
    subst ht
    have hstate : (crud_delete_todo s todo_id user_id).2 =
        ⟨{ s.rdb with todos := s.rdb.todos.filter (fun x => !(x.id == t0.id)) }, s.gdb⟩ := by
      unfold crud_delete_todo
      rw [hm]
    constructor
    · intro skip limit x hx
      unfold get_todos at hx
      have hx2 := List.take_subset _ _ hx
      have hx3 := List.drop_subset _ _ hx2
      have hx4 := List.mem_of_mem_filter hx3
      rw [hstate] at hx4
      have := (List.mem_filter.mp hx4).2
      simpa using this
    · rw [hstate]

/-- Claim C8 witness: deleting todo 10 leaves the graph untouched and the
remaining listing holds only todo 11. -/
theorem c8_witness :
    c8Todo2.id ≠ 10 ∧ (crud_delete_todo c8State 10 1).2.gdb = c8State.gdb := by
  have hthm := c8_delete_removes_from_listing c8State 10 1 c8Todo (by rfl)
  exact ⟨hthm.1 0 100 c8Todo2 (by decide), hthm.2⟩

/-- create_user_node never writes a BELONGS_TO edge. -/
theorem belongsTo_create_user_node (g : GraphDB) (uid : Nat) (un em : String) :
    (create_user_node g uid un em).belongsTo = g.belongsTo := rfl

/-- create_todo_node never writes a BELONGS_TO edge. -/
theorem belongsTo_create_todo_node (g : GraphDB) (tid : Nat) (title : String) (uid : Nat) :
    (create_todo_node g tid title uid).belongsTo = g.belongsTo := by
  unfold create_todo_node
  dsimp only
  split <;> rfl

/-- create_category_node never writes a BELONGS_TO edge. -/
theorem belongsTo_create_category_node (g : GraphDB) (cid : Nat) (name : String) (uid : Nat) :
    (create_category_node g cid name uid).belongsTo = g.belongsTo := by
  unfold create_category_node
  dsimp only
  split <;> rfl

/-- main.register leaves the BELONGS_TO edge set unchanged. -/
theorem belongsTo_register (s : AppState) (g : Bool) (un em pw : String) (now : Nat) :
    (register s g un em pw now).2.gdb.belongsTo = s.gdb.belongsTo := by
  unfold register crud_create_user
  dsimp only
  split
  · rfl
  · split
    · rfl
    · split
      · exact belongsTo_create_user_node _ _ _ _
      · rfl

/-- crud.create_todo leaves the BELONGS_TO edge set unchanged. -/
theorem belongsTo_crud_create_todo (s : AppState) (g : Bool) (todo : TodoCreate)
    (user_id now : Nat) :
    (crud_create_todo s g todo user_id now).2.gdb.belongsTo = s.gdb.belongsTo := by
  unfold crud_create_todo
  dsimp only
  split
  · exact belongsTo_create_todo_node _ _ _ _
  · rfl

/-- crud.update_todo does not touch the graph at all. -/
theorem gdb_crud_update_todo (s : AppState) (todo_id : Nat) (u : TodoUpdate)
    (user_id now : Nat) :
    (crud_update_todo s todo_id u user_id now).2.gdb = s.gdb := by
  unfold crud_update_todo
  cases (s.rdb.todos.filter (fun t => t.id == todo_id && t.user_id == user_id)).head? <;> rfl

/-- crud.delete_todo does not touch the graph at all. -/
theorem gdb_crud_delete_todo (s : AppState) (todo_id user_id : Nat) :
    (crud_delete_todo s todo_id user_id).2.gdb = s.gdb := by
  unfold crud_delete_todo
  cases (s.rdb.todos.filter (fun t => t.id == todo_id && t.user_id == user_id)).head? <;> rfl

/-- crud.create_category leaves the BELONGS_TO edge set unchanged. -/
theorem belongsTo_crud_create_category (s : AppState) (g : Bool) (category : CategoryCreate)
    (user_id now : Nat) :
    (crud_create_category s g category user_id now).2.gdb.belongsTo = s.gdb.belongsTo := by
  unfold crud_create_category
  dsimp only
  split
  · exact belongsTo_create_category_node _ _ _ _
  · rfl

/-- With no BELONGS_TO edge in the graph, the recommendation query produces
no row. -/
theorem recommendations_of_belongsTo_nil (g : GraphDB) (uid : Nat)
    (h : g.belongsTo = []) :
    get_todo_recommendations g uid = [] := by
  unfold get_todo_recommendations recommendationRows
  simp only [h]
  simp

/-- Claim C9: no operation of the service invokes link_todo_to_category, so
every state reachable through the service's own operations has an empty
BELONGS_TO edge set, and the recommendation query returns the empty
sequence for every user. -/
theorem c9_no_belongs_to_reachable (s : AppState) (h : Reachable s) :
    s.gdb.belongsTo = [] ∧ ∀ uid, get_todo_recommendations s.gdb uid = [] := by
  have hb : s.gdb.belongsTo = [] := by
    induction h with
    | init => rfl
    | stepRegister s g un em pw now _ ih => rw [belongsTo_register]; exact ih
    | stepCreateTodo s g todo user_id now _ ih => rw [belongsTo_crud_create_todo]; exact ih
    | stepUpdateTodo s todo_id u user_id now _ ih => rw [gdb_crud_update_todo]; exact ih
    | stepDeleteTodo s todo_id user_id _ ih => rw [gdb_crud_delete_todo]; exact ih
    | stepCreateCategory s g category user_id now _ ih =>
        rw [belongsTo_crud_create_category]; exact ih
  exact ⟨hb, fun uid => recommendations_of_belongsTo_nil _ uid hb⟩

/-- Claim C9 witness: on the initial state, user 0 gets no recommendation. -/
theorem c9_witness : get_todo_recommendations initState.gdb 0 = [] :=
  (c9_no_belongs_to_reachable initState Reachable.init).2 0

/-- Membership in the recommendation query's row set, characterised by the
Cypher pattern it translates: a requesting-user node, an owned todo, its
category, another todo in the same category, and its owner distinct from
the requesting user. -/
theorem mem_recommendationRows (g : GraphDB) (uid : Nat) (p : String × String) :
    p ∈ recommendationRows g uid ↔
      ∃ u ∈ g.userNodes, u.id = uid ∧
        ∃ t ∈ g.todoNodes, (u.id, t.id) ∈ g.owns ∧
          ∃ c ∈ g.categoryNodes, (t.id, c.id) ∈ g.belongsTo ∧
            ∃ ot ∈ g.todoNodes, (ot.id, c.id) ∈ g.belongsTo ∧
              ∃ ou ∈ g.userNodes, (ou.id, ot.id) ∈ g.owns ∧ ou.id ≠ uid ∧
                p = (ot.title, c.name) := by
  constructor
  · intro hp
    unfold recommendationRows at hp
    obtain ⟨u, hu, hp⟩ := List.mem_flatMap.mp hp
    obtain ⟨hu1, hu2⟩ := List.mem_filter.mp hu
    obtain ⟨t, ht, hp⟩ := List.mem_flatMap.mp hp
    obtain ⟨ht1, ht2⟩ := List.mem_filter.mp ht
    obtain ⟨c, hc, hp⟩ := List.mem_flatMap.mp hp
    obtain ⟨hc1, hc2⟩ := List.mem_filter.mp hc
    obtain ⟨ot, hot, hp⟩ := List.mem_flatMap.mp hp
    obtain ⟨hot1, hot2⟩ := List.mem_filter.mp hot
    obtain ⟨ou, hou, hp⟩ := List.mem_map.mp hp
    obtain ⟨hou1, hou2⟩ := List.mem_filter.mp hou
    obtain ⟨hou3, hou4⟩ := (Bool.and_eq_true _ _).mp hou2
    exact ⟨u, hu1, by simpa using hu2, t, ht1, by simpa using ht2, c, hc1,
      by simpa using hc2, ot, hot1, by simpa using hot2, ou, hou1,
      by simpa using hou3, by simpa using hou4, hp.symm⟩
  · rintro ⟨u, hu, huid, t, ht, hto, c, hc, hcb, ot, hot, hotb, ou, hou, houo, houne, rfl⟩
    unfold recommendationRows
    refine List.mem_flatMap.mpr ⟨u, List.mem_filter.mpr ⟨hu, by simpa using huid⟩, ?_⟩
    refine List.mem_flatMap.mpr ⟨t, List.mem_filter.mpr ⟨ht, by simpa using hto⟩, ?_⟩
    refine List.mem_flatMap.mpr ⟨c, List.mem_filter.mpr ⟨hc, by simpa using hcb⟩, ?_⟩
    refine List.mem_flatMap.mpr ⟨ot, List.mem_filter.mpr ⟨hot, by simpa using hotb⟩, ?_⟩
    exact List.mem_map.mpr ⟨ou, List.mem_filter.mpr ⟨hou, by simp [houo, houne]⟩, rfl⟩

/-- Claim C3: the recommendation result holds at most 5 pairs; every pair
is the (title, category name) of a todo owned by a user other than the
requester and belonging to the same category as some todo owned by the
requester; and when the requester owns no categorized todo, or no other
user's todo shares a category with the requester, the result is the empty
sequence rather than an error. -/
theorem c3_recommendation_contract (g : GraphDB) (uid : Nat) :
    (get_todo_recommendations g uid).length ≤ 5 ∧
    (∀ p ∈ get_todo_recommendations g uid,
      ∃ c ∈ g.categoryNodes,
        (∃ u ∈ g.userNodes, u.id = uid ∧ ∃ t ∈ g.todoNodes,
          (u.id, t.id) ∈ g.owns ∧ (t.id, c.id) ∈ g.belongsTo) ∧
        (∃ ou ∈ g.userNodes, ou.id ≠ uid ∧ ∃ ot ∈ g.todoNodes,
          (ou.id, ot.id) ∈ g.owns ∧ (ot.id, c.id) ∈ g.belongsTo ∧
          p = (ot.title, c.name))) ∧
    ((¬ ∃ u ∈ g.userNodes, u.id = uid ∧ ∃ t ∈ g.todoNodes,
        (u.id, t.id) ∈ g.owns ∧ ∃ c ∈ g.categoryNodes, (t.id, c.id) ∈ g.belongsTo) →
      get_todo_recommendations g uid = []) ∧
    ((¬ ∃ c ∈ g.categoryNodes,
        (∃ u ∈ g.userNodes, u.id = uid ∧ ∃ t ∈ g.todoNodes,
          (u.id, t.id) ∈ g.owns ∧ (t.id, c.id) ∈ g.belongsTo) ∧
        (∃ ou ∈ g.userNodes, ou.id ≠ uid ∧ ∃ ot ∈ g.todoNodes,
          (ou.id, ot.id) ∈ g.owns ∧ (ot.id, c.id) ∈ g.belongsTo)) →
      get_todo_recommendations g uid = []) := by
  refine ⟨?_, ?_, ?_, ?_⟩
  · unfold get_todo_recommendations
    rw [List.length_take]
    exact Nat.min_le_left _ _
  · intro p hp
    have hp2 : p ∈ recommendationRows g uid :=
      List.mem_of_mem_take hp
    obtain ⟨u, hu, huid, t, ht, hto, c, hc, hcb, ot, hot, hotb, ou, hou, houo, houne, rfl⟩ :=
      (mem_recommendationRows g uid p).mp hp2
    exact ⟨c, hc, ⟨u, hu, huid, t, ht, hto, hcb⟩, ⟨ou, hou, houne, ot, hot, houo, hotb, rfl⟩⟩
  · intro hno
    have hrows : recommendationRows g uid = [] := by
      rw [List.eq_nil_iff_forall_not_mem]
      intro p hp
      obtain ⟨u, hu, huid, t, ht, hto, c, hc, hcb, _⟩ :=
        (mem_recommendationRows g uid p).mp hp
      exact hno ⟨u, hu, huid, t, ht, hto, c, hc, hcb⟩
    unfold get_todo_recommendations
    rw [hrows]
    rfl
  · intro hno
    have hrows : recommendationRows g uid = [] := by
      rw [List.eq_nil_iff_forall_not_mem]
      intro p hp
      obtain ⟨u, hu, huid, t, ht, hto, c, hc, hcb, ot, hot, hotb, ou, hou, houo, houne, rfl⟩ :=
        (mem_recommendationRows g uid p).mp hp
      exact hno ⟨c, hc, ⟨u, hu, huid, t, ht, hto, hcb⟩, ⟨ou, hou, houne, ot, hot, houo, hotb⟩⟩
    unfold get_todo_recommendations
    rw [hrows]
    rfl

/-- Claim C3 witness: user 1 owns the only categorized todo in c3Graph, so
no other user shares a category and the result is empty. -/
theorem c3_witness : get_todo_recommendations c3Graph 1 = [] :=
  (c3_recommendation_contract c3Graph 1).2.2.2 (by decide)

end TodoApp
